import Mathlib

/-!
# Verification of the `resume-sessions` interactive session selector

Shallow embedding of the interactive session selector from
`src/resume_sessions/__init__.py`: the filter engine
(`get_filtered_choices`), scroll/viewport controller (`adjust_scroll` and
the clamp inside `render`), the per-session renderer (`render_session`),
the title formatter (`format_titles`), and the key-dispatch event loop
(`run_interactive_selector`).

Python `int` is modelled as `Int`; Python strings as `String` (`len` is
`String.length`, counting code points, as in Python 3).  Python's
`s[:k]` slice (including negative `k`) is modelled by `pyPrefix`.
-/

namespace ResumeSessions

/-- Python `" · ".join(titles)`: intercalate the separator `" · "`. -/
def joinSep : List String → String
  | [] => ""
  | [t] => t
  | t :: ts => t ++ " · " ++ joinSep ts

/-- Embedding of `format_titles(titles, max_length)` (source lines 548-578):
empty history gives `"New session"`; a single title is returned verbatim;
otherwise the full `" · "`-join is tried, then the abbreviation
`"{first} ··· {last two}"`, then the bare join of the last two titles.
Python `titles[-2:]` is `titles.drop (titles.length - 2)`. -/
def format_titles (titles : List String) (maxLength : Nat) : String :=
  if titles = [] then "New session"
  else if titles.length = 1 then titles.headD ""
  else
    let full := joinSep titles
    if full.length ≤ maxLength then full
    else
      let first := titles.headD ""
      let lastTwo := titles.drop (titles.length - 2)
      let abbreviated := first ++ " ··· " ++ joinSep lastTwo
      if abbreviated.length ≤ maxLength then abbreviated
      else joinSep lastTwo

/-- A display choice built by `build_session_choices` (source lines 213-266):
one per session, immutable during the interactive loop. -/
structure Choice where
  sessionId : String
  firstMessage : String
  title : String
  project : String
  time : String
  messageCount : Int
  searchable : String
deriving Repr, DecidableEq, Inhabited

/-- Python substring test `needle in hay` on strings. -/
def strContains (hay needle : String) : Bool :=
  decide (needle.data <:+: hay.data)

/-- Python `s.lower()`: lowercase each character. -/
def pyLower (s : String) : String :=
  ⟨s.data.map Char.toLower⟩

/-- Embedding of the closure `get_filtered_choices()` (source lines 306-310):
empty query returns the full choice list, otherwise the list comprehension
keeps the choices whose `searchable` field contains the lowercased query. -/
def get_filtered_choices (choices : List Choice) (searchQuery : String) :
    List Choice :=
  if searchQuery = "" then choices
  else
    let queryLower := pyLower searchQuery
    choices.filter (fun c => strContains c.searchable queryLower)

/-- The window size `max_visible = 8` fixed in `run_interactive_selector`
(source line 301). -/
def maxVisible : Int := 8

/-- The mutable selector state owned by the event loop
(`selected_idx`, `scroll_offset`, `search_query`, `search_mode`,
source lines 297-300). -/
structure SelectorState where
  selectedIdx : Int
  scrollOffset : Int
  searchQuery : String
  searchMode : Bool
deriving Repr, DecidableEq

/-- The initial state of the loop: index 0, offset 0, empty query,
not searching. -/
def initState : SelectorState :=
  { selectedIdx := 0, scrollOffset := 0, searchQuery := "", searchMode := false }

/-- Embedding of `adjust_scroll()` (source lines 312-318): pull the scroll
offset up to `selected_idx`, or down so that `selected_idx` is the last
visible row. -/
def adjust_scroll (s : SelectorState) : SelectorState :=
  if s.selectedIdx < s.scrollOffset then
    { s with scrollOffset := s.selectedIdx }
  else if s.selectedIdx ≥ s.scrollOffset + maxVisible then
    { s with scrollOffset := s.selectedIdx - maxVisible + 1 }
  else s

/-- The shrink clamp inside `render()` (source lines 391-393): when
`scroll_offset > len(filtered) - max_visible`, reset it to
`max(0, len(filtered) - max_visible)`. `total` is `len(filtered)`. -/
def renderClamp (total : Int) (s : SelectorState) : SelectorState :=
  if s.scrollOffset > total - maxVisible then
    { s with scrollOffset := max 0 (total - maxVisible) }
  else s

/-- Python `s[:k]` for an `Int` index `k`: a negative `k` counts from the
end (`s[:k] = s[0:max(0, len(s)+k)]`). -/
def pyPrefix (s : String) (k : Int) : String :=
  if 0 ≤ k then ⟨s.data.take k.toNat⟩
  else ⟨s.data.take ((s.length : Int) + k).toNat⟩

/-- Python `s[:-1]`: drop the last character. -/
def pyDropLast (s : String) : String :=
  ⟨s.data.dropLast⟩

/-- The truncation rule the renderer applies (spec §4.5): a string longer
than `limit` becomes `s[:limit-3] + "..."`, otherwise it is unchanged. -/
def truncWithEllipsis (limit : Int) (s : String) : String :=
  if (s.length : Int) > limit then pyPrefix s (limit - 3) ++ "..." else s

/-- Embedding of `render_session(choice, is_selected, width)` (source lines
320-372): the list of strings printed for one choice, rich markup tags
included literally. -/
def render_session (choice : Choice) (isSelected : Bool) (width : Int) :
    List String :=
  let cursor := if isSelected then "› " else "  "
  let maxTextLen := width - 4
  let hasTitle := choice.title ≠ ""
  let firstMsg0 := if choice.firstMessage = "" then "(empty session)"
                   else choice.firstMessage
  let firstMsg := if (firstMsg0.length : Int) > maxTextLen then
                    pyPrefix firstMsg0 (maxTextLen - 3) ++ "..."
                  else firstMsg0
  let top :=
    if hasTitle then
      let title := if (choice.title.length : Int) > maxTextLen then
                     pyPrefix choice.title (maxTextLen - 3) ++ "..."
                   else choice.title
      let line1 := if isSelected then
                     "[bold cyan]" ++ cursor ++ title ++ "[/bold cyan]"
                   else cursor ++ title
      if choice.firstMessage ≠ "" then
        [line1, "[dim]    " ++ firstMsg ++ "[/dim]"]
      else [line1]
    else
      if isSelected then ["[bold cyan]" ++ cursor ++ firstMsg ++ "[/bold cyan]"]
      else [cursor ++ firstMsg]
  let metaParts := (if choice.time ≠ "" then [choice.time] else [])
                   ++ [toString choice.messageCount ++ " messages"]
                   ++ [choice.project]
  let metaLine0 := "    " ++ joinSep metaParts
  let metaLine := if (metaLine0.length : Int) > width then
                    pyPrefix metaLine0 (width - 3) ++ "..."
                  else metaLine0
  top ++ ["[dim]" ++ metaLine ++ "[/dim]"]

/-- The per-row loop of `render()` (source lines 396-403) over the visible
index range, with a blank separator line between consecutive session
blocks (not after the last). -/
def renderRows (filtered : List Choice) (selIdx : Int) (width : Int) :
    List Nat → List String
  | [] => []
  | [i] => render_session (filtered.getD i default) ((i : Int) = selIdx) width
  | i :: j :: rest =>
      render_session (filtered.getD i default) ((i : Int) = selIdx) width
        ++ [""] ++ renderRows filtered selIdx width (j :: rest)

/-- Embedding of `render()` (source lines 374-410): returns the state after
the shrink clamp together with the strings printed, in order.  When the
filtered list is empty the function returns early, before the clamp. -/
def render (choices : List Choice) (s : SelectorState) (termWidth : Int) :
    SelectorState × List String :=
  let header :=
    "[bold]Resume Session[/bold]  ↑↓ navigate · Enter select · / search · q quit\n"
  let out1 := [header]
  let out2 := if s.searchMode ∨ s.searchQuery ≠ "" then
                out1 ++ ["[cyan]Search: " ++ s.searchQuery ++ "_[/cyan]\n"]
              else out1
  let filtered := get_filtered_choices choices s.searchQuery
  if filtered = [] then (s, out2 ++ ["[dim]No matching sessions[/dim]"])
  else
    let s1 := renderClamp (filtered.length : Int) s
    let visibleEnd := min (s1.scrollOffset + maxVisible) (filtered.length : Int)
    let idxs := (List.range (visibleEnd - s1.scrollOffset).toNat).map
                  (fun j => s1.scrollOffset.toNat + j)
    let out3 := out2 ++ renderRows filtered s.selectedIdx termWidth idxs
    let out4 := if (filtered.length : Int) > maxVisible then
                  out3 ++ ["\n[dim]" ++ toString (s1.scrollOffset + 1) ++ "-"
                           ++ toString visibleEnd ++ " of "
                           ++ toString filtered.length ++ "[/dim]"]
                else out3
    (s1, out4)

/-- One decoded key event, as returned by `getch()` (source lines 412-427):
a plain character, or one of the decoded `"\x1b[{c}"` escape sequences
(`up` is `"\x1b[A"`, `down` is `"\x1b[B"`, `csi c` any other). The bare
escape key is `Key.char (Char.ofNat 27)`. -/
inductive Key where
  | char (c : Char)
  | up
  | down
  | csi (c : Char)
deriving Repr, DecidableEq

/-- Result of dispatching one key: keep looping with a new state, or
return from `run_interactive_selector` with an optional session id. -/
inductive StepRes where
  | cont (s : SelectorState)
  | exit (r : Option String)
deriving Repr, DecidableEq

/-- Approximation of Python `str.isprintable()` for a single character,
exact on ASCII: true iff the character is not a C0 control character and
not DEL.  No theorem below depends on the non-ASCII cases. -/
def pyIsPrintable (c : Char) : Bool :=
  32 ≤ c.toNat ∧ c.toNat ≠ 127

/-- Embedding of the key dispatch of the event loop (source lines 436-469):
the `if/elif` chain run on the key read after rendering.  `filtered` is the
list the loop got back from `render()`, which equals
`get_filtered_choices` at the current query. -/
def dispatch (choices : List Choice) (s : SelectorState) (k : Key) : StepRes :=
  let filtered := get_filtered_choices choices s.searchQuery
  match k with
  | .up => .cont { s with selectedIdx := max 0 (s.selectedIdx - 1) }
  | .down =>
      .cont { s with selectedIdx :=
                if filtered = [] then 0
                else min ((filtered.length : Int) - 1) (s.selectedIdx + 1) }
  | .csi _ => .cont s
  | .char c =>
      if c = 'q' ∨ c = Char.ofNat 3 then .exit none
      else if c = Char.ofNat 13 ∨ c = Char.ofNat 10 then
        if s.searchMode then .cont { s with searchMode := false }
        else if filtered ≠ [] ∧ 0 ≤ s.selectedIdx
                ∧ s.selectedIdx < (filtered.length : Int) then
          .exit (some ((filtered.getD s.selectedIdx.toNat default).sessionId))
        else .cont s
      else if c = '/' then
        .cont { searchMode := true, searchQuery := "",
                selectedIdx := 0, scrollOffset := 0 }
      else if c = Char.ofNat 127 then
        if s.searchQuery ≠ "" then
          .cont { s with searchQuery := pyDropLast s.searchQuery,
                         selectedIdx := 0, scrollOffset := 0 }
        else .cont s
      else if c = Char.ofNat 27 then
        .cont { searchMode := false, searchQuery := "",
                selectedIdx := 0, scrollOffset := 0 }
      else if s.searchMode ∧ pyIsPrintable c then
        .cont { s with searchQuery := s.searchQuery.push c,
                       selectedIdx := 0, scrollOffset := 0 }
      else .cont s

/-- Outcome of running the loop against a finite key script: a session was
selected, the selector was cancelled, or the script ran out and the loop
is still blocked waiting for the next key. -/
inductive Outcome where
  | selected (id : String)
  | cancelled
  | pending
deriving Repr, DecidableEq

/-- The `while True` loop of `run_interactive_selector` (source lines
429-473): each iteration runs `adjust_scroll()`, then `render()` (whose
clamp updates the state), then dispatches one key. -/
def runLoop (choices : List Choice) (termWidth : Int) :
    SelectorState → List Key → Outcome
  | _, [] => .pending
  | s, k :: ks =>
      let s1 := (render choices (adjust_scroll s) termWidth).1
      match dispatch choices s1 k with
      | .exit (some id) => .selected id
      | .exit none => .cancelled
      | .cont s2 => runLoop choices termWidth s2 ks

/-- Embedding of `run_interactive_selector` (source lines 269-473) on an
already-built choice list (`build_session_choices` of zero sessions is the
empty list): with no choices it prints "No sessions available" and returns
`None` immediately (source lines 293-295); otherwise it enters the loop at
`initState`. -/
def run_interactive_selector (choices : List Choice) (termWidth : Int)
    (keys : List Key) : Outcome :=
  if choices = [] then .cancelled
  else runLoop choices termWidth initState keys

/-- Concrete choices used to instantiate witnesses. -/
def demoChoices : List Choice :=
  [ { sessionId := "s1", firstMessage := "alpha", title := "", project := "~/p",
      time := "3 hours ago", messageCount := 5, searchable := "~/p alpha " },
    { sessionId := "s2", firstMessage := "beta", title := "", project := "~/p",
      time := "", messageCount := 2, searchable := "~/p beta " },
    { sessionId := "s3", firstMessage := "gamma auth", title := "", project := "~/p",
      time := "", messageCount := 1, searchable := "~/p gamma auth " } ]

/-- C2: filter engine correctness.  The empty query returns the choice list
unchanged; a non-empty query returns exactly the `List.filter` of the
choices by substring membership of the lowercased query in `searchable`
(hence a stable subsequence), and every returned choice satisfies that
membership. -/
theorem filter_engine_correct (choices : List Choice) (q : String) :
    get_filtered_choices choices "" = choices ∧
    (q ≠ "" →
      get_filtered_choices choices q
        = choices.filter (fun c => strContains c.searchable (pyLower q))) ∧
    (get_filtered_choices choices q).Sublist choices ∧
    ∀ c ∈ get_filtered_choices choices q, q ≠ "" →
      strContains c.searchable (pyLower q) = true := by
  refine ⟨by simp [get_filtered_choices], fun hq => by simp [get_filtered_choices, hq],
    ?_, ?_⟩
  · by_cases hq : q = ""
    · simp [get_filtered_choices, hq]
    · simp only [get_filtered_choices, if_neg hq]
      exact List.filter_sublist choices
  · intro c hc hq
    simp only [get_filtered_choices, if_neg hq] at hc
    exact (List.mem_filter.mp hc).2

/-- Witness for `filter_engine_correct` at concrete inputs. -/
theorem filter_engine_correct_witness :
    get_filtered_choices demoChoices "" = demoChoices ∧
    get_filtered_choices demoChoices "AUTH"
      = demoChoices.filter (fun c => strContains c.searchable (pyLower "AUTH")) :=
  ⟨(filter_engine_correct demoChoices "AUTH").1,
   (filter_engine_correct demoChoices "AUTH").2.1 (by decide)⟩

/-- Characterization of `format_titles` on a history of at least two
titles: the full join if it fits, else the abbreviation if it fits, else
the join of the last two titles. -/
theorem format_titles_of_two_le (m : Nat) (l : List String) (h : 2 ≤ l.length) :
    format_titles l m =
      if (joinSep l).length ≤ m then joinSep l
      else if (l.headD "" ++ " ··· "
               ++ joinSep (l.drop (l.length - 2))).length ≤ m then
        l.headD "" ++ " ··· " ++ joinSep (l.drop (l.length - 2))
      else joinSep (l.drop (l.length - 2)) := by
  have h0 : l ≠ [] := by intro e; subst e; simp at h
  have h1 : l.length ≠ 1 := by omega
  simp only [format_titles, if_neg h0, if_neg h1]

/-- C4: `format_titles` case analysis: "New session" on an empty history,
the single entry verbatim, the full `" · "`-join when it fits, the
`"{first} ··· {last two}"` abbreviation when that fits, and otherwise the
bare join of the last two entries. -/
theorem format_titles_case_analysis (m : Nat) (t : String) (l : List String)
    (h : 2 ≤ l.length) :
    format_titles [] m = "New session" ∧
    format_titles [t] m = t ∧
    format_titles l m =
      (if (joinSep l).length ≤ m then joinSep l
       else if (l.headD "" ++ " ··· "
                ++ joinSep (l.drop (l.length - 2))).length ≤ m then
         l.headD "" ++ " ··· " ++ joinSep (l.drop (l.length - 2))
       else joinSep (l.drop (l.length - 2))) :=
  ⟨by simp [format_titles], by simp [format_titles, joinSep],
   format_titles_of_two_le m l h⟩

/-- Witness for `format_titles_case_analysis` at concrete inputs. -/
theorem format_titles_case_analysis_witness :
    format_titles [] 10 = "New session" ∧
    format_titles ["x"] 10 = "x" ∧
    format_titles ["a", "b", "c"] 10 =
      (if (joinSep ["a", "b", "c"]).length ≤ 10 then joinSep ["a", "b", "c"]
       else if (["a", "b", "c"].headD "" ++ " ··· "
                ++ joinSep (["a", "b", "c"].drop (["a", "b", "c"].length - 2))).length
                  ≤ 10 then
         ["a", "b", "c"].headD "" ++ " ··· "
           ++ joinSep (["a", "b", "c"].drop (["a", "b", "c"].length - 2))
       else joinSep (["a", "b", "c"].drop (["a", "b", "c"].length - 2))) :=
  format_titles_case_analysis 10 "x" ["a", "b", "c"] (by decide)

/-- The join of the last two titles is never longer than the join of the
whole history (for a history of at least two titles). -/
theorem joinSep_dropLastTwo_le : ∀ l : List String, 2 ≤ l.length →
    (joinSep (l.drop (l.length - 2))).length ≤ (joinSep l).length
  | [], h => by simp at h
  | [_], h => by simp at h
  | [a, b], _ => by simp
  | a :: b :: c :: v, _ => by
      have ih := joinSep_dropLastTwo_le (b :: c :: v) (by simp)
      have hd : (a :: b :: c :: v).drop ((a :: b :: c :: v).length - 2)
          = (b :: c :: v).drop ((b :: c :: v).length - 2) := by
        have h1 : (a :: b :: c :: v).length - 2 = v.length + 1 := by
          simp [List.length_cons]
        have h2 : (b :: c :: v).length - 2 = v.length := by
          simp [List.length_cons]
        rw [h1, h2, List.drop_succ_cons]
      rw [hd]
      refine le_trans ih ?_
      have hc : joinSep (a :: b :: c :: v)
          = a ++ " · " ++ joinSep (b :: c :: v) := rfl
      rw [hc]
      simp [String.length_append]

/-- The length of `format_titles` is monotone in the length budget. -/
theorem format_titles_length_mono (l : List String) (m1 m2 : Nat)
    (hm : m1 ≤ m2) :
    (format_titles l m1).length ≤ (format_titles l m2).length := by
  match l with
  | [] => simp [format_titles]
  | [t] => simp [format_titles]
  | a :: b :: v =>
    have h2 : 2 ≤ (a :: b :: v : List String).length := by simp
    rw [format_titles_of_two_le m1 _ h2, format_titles_of_two_le m2 _ h2]
    have hL := joinSep_dropLastTwo_le (a :: b :: v) h2
    have hLA : (joinSep ((a :: b :: v).drop ((a :: b :: v).length - 2))).length
        ≤ ((a :: b :: v).headD "" ++ " ··· "
           ++ joinSep ((a :: b :: v).drop ((a :: b :: v).length - 2))).length := by
      simp [String.length_append]
    split_ifs <;> omega

/-- C5 counterexample: the empty history's simple join `""` fits any
budget, yet `format_titles` returns `"New session"`, not the join. -/
theorem format_titles_join_fits_cex :
    (joinSep ([] : List String)).length ≤ 0 ∧
    format_titles [] 0 ≠ joinSep ([] : List String) :=
  ⟨by decide, by decide⟩

/-- C5 (amended to non-empty histories): for a non-empty history whose
`" · "`-join fits the budget, `format_titles` returns exactly that join;
and the result length is monotone in the budget for every history. -/
theorem format_titles_join_fits_and_monotone (l : List String)
    (m m1 m2 : Nat) :
    (l ≠ [] → (joinSep l).length ≤ m → format_titles l m = joinSep l) ∧
    (m1 ≤ m2 → (format_titles l m1).length ≤ (format_titles l m2).length) := by
  constructor
  · intro hne hfit
    cases l with
    | nil => exact absurd rfl hne
    | cons a t =>
      cases t with
      | nil => simp [format_titles, joinSep]
      | cons b v =>
        rw [format_titles_of_two_le m _ (by simp), if_pos hfit]
  · exact format_titles_length_mono l m1 m2

/-- Witness for `format_titles_join_fits_and_monotone` at concrete
inputs. -/
theorem format_titles_join_fits_and_monotone_witness :
    format_titles ["a", "b", "c"] 10 = joinSep ["a", "b", "c"] ∧
    (format_titles ["a", "b", "c"] 0).length
      ≤ (format_titles ["a", "b", "c"] 10).length :=
  ⟨(format_titles_join_fits_and_monotone ["a", "b", "c"] 10 0 10).1
      (by decide) (by decide),
   (format_titles_join_fits_and_monotone ["a", "b", "c"] 10 0 10).2
      (by decide)⟩

/-- C10: on a history of exactly two titles the result is always the full
`" · "`-join, at every budget: the abbreviation is never returned (it is
strictly longer than the full join) and the last-two fallback equals the
full join. -/
theorem format_titles_two_entries (a b : String) (m : Nat) :
    format_titles [a, b] m = a ++ " · " ++ b := by
  have h2 : 2 ≤ ([a, b] : List String).length := by simp
  rw [format_titles_of_two_le m _ h2]
  have hd : ([a, b] : List String).drop (([a, b] : List String).length - 2)
      = [a, b] := rfl
  have hj : joinSep [a, b] = a ++ " · " ++ b := rfl
  rw [hd, hj]
  by_cases hf : (a ++ " · " ++ b).length ≤ m
  · rw [if_pos hf]
  · rw [if_neg hf, if_neg ?_]
    have hh : ([a, b] : List String).headD "" = a := rfl
    rw [hh]
    simp only [String.length_append] at hf ⊢
    omega

/-- `adjust_scroll` changes only the scroll offset. -/
theorem adjust_scroll_frame (s : SelectorState) :
    (adjust_scroll s).selectedIdx = s.selectedIdx ∧
    (adjust_scroll s).searchQuery = s.searchQuery ∧
    (adjust_scroll s).searchMode = s.searchMode := by
  unfold adjust_scroll
  split_ifs <;> exact ⟨rfl, rfl, rfl⟩

/-- After `adjust_scroll`, the selection lies inside the visible window
and the scroll offset is still non-negative. -/
theorem adjust_scroll_bounds (s : SelectorState)
    (h0 : 0 ≤ s.scrollOffset) (h1 : 0 ≤ s.selectedIdx) :
    (adjust_scroll s).scrollOffset ≤ s.selectedIdx ∧
    s.selectedIdx < (adjust_scroll s).scrollOffset + maxVisible ∧
    0 ≤ (adjust_scroll s).scrollOffset := by
  unfold adjust_scroll maxVisible
  split_ifs with hlt hge <;> first | (dsimp only; omega) | omega

/-- The state returned by `render` is the input state when the filtered
list is empty (the early return skips the clamp), and the clamped state
otherwise. -/
theorem render_fst (choices : List Choice) (s : SelectorState) (w : Int) :
    (render choices s w).1 =
      if get_filtered_choices choices s.searchQuery = [] then s
      else renderClamp ((get_filtered_choices choices s.searchQuery).length : Int) s := by
  by_cases hf : get_filtered_choices choices s.searchQuery = []
  · simp [render, hf]
  · simp [render, hf]

/-- `renderClamp` changes only the scroll offset. -/
theorem renderClamp_frame (total : Int) (s : SelectorState) :
    (renderClamp total s).selectedIdx = s.selectedIdx ∧
    (renderClamp total s).searchQuery = s.searchQuery := by
  unfold renderClamp
  split_ifs <;> exact ⟨rfl, rfl⟩

/-- After the clamp, a window containing an in-range selection still
contains it, and the scroll offset lands in `[0, max 0 (total - 8)]`. -/
theorem renderClamp_bounds (total : Int) (s : SelectorState)
    (hlo : s.scrollOffset ≤ s.selectedIdx)
    (hhi : s.selectedIdx < s.scrollOffset + maxVisible)
    (h0 : 0 ≤ s.scrollOffset) (_hi0 : 0 ≤ s.selectedIdx)
    (hlt : s.selectedIdx < total) :
    (renderClamp total s).scrollOffset ≤ s.selectedIdx ∧
    s.selectedIdx < (renderClamp total s).scrollOffset + maxVisible ∧
    0 ≤ (renderClamp total s).scrollOffset ∧
    (renderClamp total s).scrollOffset ≤ max 0 (total - maxVisible) := by
  unfold renderClamp maxVisible at *
  split_ifs with hc <;> first | (dsimp only; omega) | omega

/-- C1: viewport invariant.  At every render of the interactive loop —
i.e. after `adjust_scroll` and the shrink clamp inside `render` have both
run — an in-range selection over a non-empty filtered list is inside the
visible window of `max_visible = 8` rows, and the scroll offset lies in
`[0, max 0 (total - 8)]`.  The hypotheses `0 ≤ scroll_offset` and
`0 ≤ selected_idx` hold of every state the loop reaches. -/
theorem viewport_invariant (choices : List Choice) (s : SelectorState)
    (w : Int)
    (h0 : 0 ≤ s.scrollOffset) (h1 : 0 ≤ s.selectedIdx)
    (h2 : s.selectedIdx
            < ((get_filtered_choices choices s.searchQuery).length : Int)) :
    ((render choices (adjust_scroll s) w).1).scrollOffset
        ≤ ((render choices (adjust_scroll s) w).1).selectedIdx ∧
    ((render choices (adjust_scroll s) w).1).selectedIdx
        < ((render choices (adjust_scroll s) w).1).scrollOffset + maxVisible ∧
    0 ≤ ((render choices (adjust_scroll s) w).1).scrollOffset ∧
    ((render choices (adjust_scroll s) w).1).scrollOffset
        ≤ max 0 (((get_filtered_choices choices s.searchQuery).length : Int)
                 - maxVisible) ∧
    ((render choices (adjust_scroll s) w).1).selectedIdx = s.selectedIdx := by
  obtain ⟨haIdx, haQ, _⟩ := adjust_scroll_frame s
  obtain ⟨halo, hahi, ha0⟩ := adjust_scroll_bounds s h0 h1
  have hne : get_filtered_choices choices (adjust_scroll s).searchQuery ≠ [] := by
    rw [haQ]
    intro he
    rw [he] at h2
    simp at h2
    omega
  rw [render_fst, if_neg hne, haQ]
  obtain ⟨hcIdx, _⟩ :=
    renderClamp_frame
      ((get_filtered_choices choices s.searchQuery).length : Int)
      (adjust_scroll s)
  rw [hcIdx, haIdx]
  obtain ⟨c1, c2, c3, c4⟩ :=
    renderClamp_bounds
      ((get_filtered_choices choices s.searchQuery).length : Int)
      (adjust_scroll s)
      (by rw [haIdx]; exact halo)
      (by rw [haIdx]; exact hahi)
      ha0
      (by rw [haIdx]; exact h1)
      (by rw [haIdx]; exact h2)
  rw [haIdx] at c1 c2
  exact ⟨c1, c2, c3, c4, rfl⟩

/-- Witness for `viewport_invariant` at a concrete state. -/
theorem viewport_invariant_witness :
    (0 ≤ (2 : Int) ∧ 0 ≤ (2 : Int) ∧
      (2 : Int) < ((get_filtered_choices demoChoices "").length : Int)) ∧
    ((render demoChoices
        (adjust_scroll ⟨2, 0, "", false⟩) 80).1).scrollOffset
        ≤ ((render demoChoices
        (adjust_scroll ⟨2, 0, "", false⟩) 80).1).selectedIdx :=
  ⟨⟨by decide, by decide, by decide⟩,
   (viewport_invariant demoChoices ⟨2, 0, "", false⟩ 80
      (by decide) (by decide) (by decide)).1⟩

/-- C3: Enter (`"\r"`) semantics.  In search mode it only clears the
search-mode flag — query, selection and scroll are untouched (so the
filtered list, a function of the query, is unchanged) and the loop
continues.  Out of search mode, with an in-range selection over a
non-empty filtered list, it terminates the loop returning the selected
choice's session id. -/
theorem enter_key_semantics (choices : List Choice) (s : SelectorState) :
    (s.searchMode = true →
      dispatch choices s (.char (Char.ofNat 13))
        = .cont { s with searchMode := false }) ∧
    (s.searchMode = false →
      get_filtered_choices choices s.searchQuery ≠ [] →
      0 ≤ s.selectedIdx →
      s.selectedIdx < ((get_filtered_choices choices s.searchQuery).length : Int) →
      dispatch choices s (.char (Char.ofNat 13))
        = .exit (some (((get_filtered_choices choices s.searchQuery).getD
            s.selectedIdx.toNat default).sessionId))) := by
  constructor
  · intro hm
    simp only [dispatch]
    rw [if_neg (by decide), if_pos (by decide), if_pos hm]
  · intro hm hne h0 h2
    simp only [dispatch]
    rw [if_neg (by decide), if_pos (by decide), if_neg (by rw [hm]; decide),
      if_pos ⟨hne, h0, h2⟩]

/-- Witness for `enter_key_semantics` at concrete states. -/
theorem enter_key_semantics_witness :
    dispatch demoChoices ⟨0, 0, "", true⟩ (.char (Char.ofNat 13))
      = .cont { (⟨0, 0, "", true⟩ : SelectorState) with searchMode := false } ∧
    dispatch demoChoices ⟨2, 0, "", false⟩ (.char (Char.ofNat 13))
      = .exit (some (((get_filtered_choices demoChoices "").getD
          (2 : Int).toNat default).sessionId)) :=
  ⟨(enter_key_semantics demoChoices ⟨0, 0, "", true⟩).1 rfl,
   (enter_key_semantics demoChoices ⟨2, 0, "", false⟩).2 rfl
      (by decide) (by decide) (by decide)⟩

/-- C9: quit precedence.  `q` and the interrupt character (`"\x03"`)
terminate the loop with no selection in every state, search mode
included; in particular `q` is never appended to the query (dispatch never
continues on it). -/
theorem quit_always_cancels (choices : List Choice) (s : SelectorState) :
    dispatch choices s (.char 'q') = .exit none ∧
    dispatch choices s (.char (Char.ofNat 3)) = .exit none ∧
    ∀ s' : SelectorState, dispatch choices s (.char 'q') ≠ .cont s' := by
  refine ⟨?_, ?_, ?_⟩
  · simp only [dispatch]
    rw [if_pos (by decide)]
  · simp only [dispatch]
    rw [if_pos (by decide)]
  · intro s' hc
    simp only [dispatch] at hc
    rw [if_pos (by decide)] at hc
    exact StepRes.noConfusion hc

/-- Witness for `quit_always_cancels` in search mode at a concrete
state. -/
theorem quit_always_cancels_witness :
    dispatch demoChoices ⟨0, 0, "au", true⟩ (.char 'q') = .exit none ∧
    dispatch demoChoices ⟨0, 0, "au", true⟩ (.char 'q')
      ≠ .cont ⟨0, 0, "auq", true⟩ :=
  ⟨(quit_always_cancels demoChoices ⟨0, 0, "au", true⟩).1,
   (quit_always_cancels demoChoices ⟨0, 0, "au", true⟩).2.2 ⟨0, 0, "auq", true⟩⟩

/-- C7 counterexample: with search mode off (Browsing) and the query
`"a"`, Backspace is not ignored — it edits the query to `""`. -/
theorem backspace_browsing_cex :
    dispatch demoChoices ⟨0, 0, "a", false⟩ (.char (Char.ofNat 127))
      = .cont ⟨0, 0, "", false⟩ ∧
    StepRes.cont (⟨0, 0, "", false⟩ : SelectorState)
      ≠ .cont ⟨0, 0, "a", false⟩ :=
  ⟨by decide, by decide⟩

/-- C7 (amended): Backspace acts on the query alone, not on the mode — it
removes the last query character and resets selection and scroll to 0
whenever the query is non-empty, in Browsing as well as Searching, and is
a no-op (state unchanged) whenever the query is empty. -/
theorem backspace_semantics (choices : List Choice) (s : SelectorState) :
    (s.searchQuery = "" →
      dispatch choices s (.char (Char.ofNat 127)) = .cont s) ∧
    (s.searchQuery ≠ "" →
      dispatch choices s (.char (Char.ofNat 127))
        = .cont { s with searchQuery := pyDropLast s.searchQuery,
                         selectedIdx := 0, scrollOffset := 0 }) := by
  constructor
  · intro hq
    simp only [dispatch]
    rw [if_neg (by decide), if_neg (by decide), if_neg (by decide),
      if_pos (by decide), if_neg (by simp [hq])]
  · intro hq
    simp only [dispatch]
    rw [if_neg (by decide), if_neg (by decide), if_neg (by decide),
      if_pos (by decide), if_pos hq]

/-- Witness for `backspace_semantics` at concrete states. -/
theorem backspace_semantics_witness :
    dispatch demoChoices ⟨0, 0, "", false⟩ (.char (Char.ofNat 127))
      = .cont ⟨0, 0, "", false⟩ ∧
    dispatch demoChoices ⟨1, 1, "ab", true⟩ (.char (Char.ofNat 127))
      = .cont { (⟨1, 1, "ab", true⟩ : SelectorState) with
                  searchQuery := pyDropLast "ab",
                  selectedIdx := 0, scrollOffset := 0 } :=
  ⟨(backspace_semantics demoChoices ⟨0, 0, "", false⟩).1 rfl,
   (backspace_semantics demoChoices ⟨1, 1, "ab", true⟩).2 (by decide)⟩

/-- C6 counterexample: invoked with zero sessions (hence zero choices),
the selector returns `None` at once — before any key is read — instead of
keeping the interactive loop running ("pending" is what an alive loop
yields on an empty key script). -/
theorem empty_sessions_return_cex :
    run_interactive_selector [] 80 [] = .cancelled ∧
    run_interactive_selector [] 80 [] ≠ .pending :=
  ⟨by decide, by decide⟩

/-- C6 (amended): zero *filtered matches* is not an error — the explicit
"No matching sessions" line is rendered and the loop keeps running,
still accepting `q` (cancel), Escape, `/`, and Up/Down (which do not
exit); zero *sessions*, however, prints an empty-state message and
returns immediately with no selection, for any key script. -/
theorem empty_state_behavior (choices : List Choice) (s : SelectorState)
    (w : Int) (ks : List Key)
    (hf : get_filtered_choices choices s.searchQuery = []) :
    run_interactive_selector [] w ks = .cancelled ∧
    "[dim]No matching sessions[/dim]" ∈ (render choices s w).2 ∧
    dispatch choices s (.char 'q') = .exit none ∧
    (∃ s', dispatch choices s .up = .cont s') ∧
    (∃ s', dispatch choices s .down = .cont s') ∧
    dispatch choices s (.char (Char.ofNat 27)) = .cont ⟨0, 0, "", false⟩ ∧
    dispatch choices s (.char '/') = .cont ⟨0, 0, "", true⟩ := by
  refine ⟨by simp [run_interactive_selector], ?_, ?_, ⟨_, rfl⟩, ⟨_, rfl⟩, ?_, ?_⟩
  · simp [render, hf]
  · simp only [dispatch]
    rw [if_pos (by decide)]
  · simp only [dispatch]
    rw [if_neg (by decide), if_neg (by decide), if_neg (by decide),
      if_neg (by decide), if_pos (by decide)]
  · simp only [dispatch]
    rw [if_neg (by decide), if_neg (by decide), if_pos (by decide)]

/-- Witness for `empty_state_behavior` at a concrete no-match query. -/
theorem empty_state_behavior_witness :
    get_filtered_choices demoChoices "zzz" = [] ∧
    "[dim]No matching sessions[/dim]"
      ∈ (render demoChoices ⟨0, 0, "zzz", false⟩ 80).2 :=
  ⟨by decide,
   (empty_state_behavior demoChoices ⟨0, 0, "zzz", false⟩ 80 []
      (by decide)).2.1⟩

/-- C8: renderer truncation.  Every line `render_session` produces follows
the `truncWithEllipsis` rule: the title line and the first-message line
truncate their text at limit `W - 4`, the metadata line at limit `W`; the
metadata line is the indented `" · "`-join of the relative time (when
present), `"{count} messages"`, and the project path. -/
theorem renderer_truncation (c : Choice) (sel : Bool) (W : Int) :
    render_session c sel W =
      (if c.title ≠ "" then
        (if sel then
          ["[bold cyan]" ++ "› " ++ truncWithEllipsis (W - 4) c.title
             ++ "[/bold cyan]"]
         else ["  " ++ truncWithEllipsis (W - 4) c.title])
        ++ (if c.firstMessage ≠ "" then
              ["[dim]    " ++ truncWithEllipsis (W - 4) c.firstMessage
                 ++ "[/dim]"]
            else [])
       else
        (if sel then
          ["[bold cyan]" ++ "› " ++ truncWithEllipsis (W - 4)
             (if c.firstMessage = "" then "(empty session)"
              else c.firstMessage) ++ "[/bold cyan]"]
         else ["  " ++ truncWithEllipsis (W - 4)
             (if c.firstMessage = "" then "(empty session)"
              else c.firstMessage)]))
      ++ ["[dim]" ++ truncWithEllipsis W ("    " ++ joinSep
            ((if c.time ≠ "" then [c.time] else [])
             ++ [toString c.messageCount ++ " messages"] ++ [c.project]))
          ++ "[/dim]"] := by
  by_cases ht : c.title = "" <;>
    by_cases hm : c.firstMessage = "" <;>
      cases sel <;>
        simp [render_session, truncWithEllipsis, ht, hm]

/-- Every `cont` result of the key dispatch keeps `selected_idx` and
`scroll_offset` non-negative: the hypotheses of `viewport_invariant` hold
of every state the loop reaches from `initState`. -/
theorem dispatch_preserves_nonneg (choices : List Choice)
    (s : SelectorState) (k : Key) (s' : SelectorState)
    (h1 : 0 ≤ s.selectedIdx) (h2 : 0 ≤ s.scrollOffset)
    (hc : dispatch choices s k = .cont s') :
    0 ≤ s'.selectedIdx ∧ 0 ≤ s'.scrollOffset := by
  cases k with
  | up =>
    simp only [dispatch] at hc
    cases hc
    constructor
    · dsimp only; omega
    · exact h2
  | down =>
    simp only [dispatch] at hc
    by_cases hf : get_filtered_choices choices s.searchQuery = []
    · rw [if_pos hf] at hc
      cases hc
      exact ⟨le_refl 0, h2⟩
    · rw [if_neg hf] at hc
      cases hc
      have : 1 ≤ (get_filtered_choices choices s.searchQuery).length :=
        List.length_pos.mpr hf
      constructor
      · dsimp only; omega
      · exact h2
  | csi c =>
    simp only [dispatch] at hc
    cases hc
    exact ⟨h1, h2⟩
  | char c =>
    simp only [dispatch] at hc
    split_ifs at hc <;> first
      | exact StepRes.noConfusion hc
      | (cases hc; exact ⟨h1, h2⟩)
      | (cases hc; exact ⟨by simp, by simp⟩)

/-- The pre-key phase of each loop iteration (`adjust_scroll` then the
clamp in `render`) also keeps both fields non-negative. -/
theorem preRender_preserves_nonneg (choices : List Choice)
    (s : SelectorState) (w : Int)
    (h1 : 0 ≤ s.selectedIdx) (h2 : 0 ≤ s.scrollOffset) :
    0 ≤ ((render choices (adjust_scroll s) w).1).selectedIdx ∧
    0 ≤ ((render choices (adjust_scroll s) w).1).scrollOffset := by
  obtain ⟨haIdx, haQ, _⟩ := adjust_scroll_frame s
  obtain ⟨_, _, ha0⟩ := adjust_scroll_bounds s h2 h1
  rw [render_fst]
  by_cases hf : get_filtered_choices choices (adjust_scroll s).searchQuery = []
  · rw [if_pos hf, haIdx]
    exact ⟨h1, ha0⟩
  · rw [if_neg hf]
    unfold renderClamp
    split_ifs with hcl
    · refine ⟨by dsimp only; rw [haIdx]; exact h1, by dsimp only; omega⟩
    · rw [haIdx]
      exact ⟨h1, ha0⟩

/-- End-to-end check of the embedding (spec scenario 1): three sessions,
Down, Down, Enter selects the third session's id. -/
theorem scenario_down_down_enter :
    run_interactive_selector demoChoices 80
      [.down, .down, .char (Char.ofNat 13)] = .selected "s3" := by decide

end ResumeSessions
